import Mathlib

/-!
A shallow embedding of `src/native/download.py` (functions `download`,
`retrieve_natives`, `build_download_parser`, `main`) together with proofs
about its behaviour.

The external world (directories, files, the network and the sequence of
performed side effects) is modelled explicitly as a `World` value threaded
through the functions; the network is a parameter `net : Net` mapping a URL
to the outcome of the single HTTP GET the code performs on it.  Exceptions
are modelled with `Except PyError`.
-/

set_option autoImplicit false

namespace Native

/-- ASCII alphanumeric character, the class `[0-9A-Za-z]` of the regex in
`download`. -/
def isAsciiAlnum (c : Char) : Bool :=
  ('0' ≤ c && c ≤ '9') || ('A' ≤ c && c ≤ 'Z') || ('a' ≤ c && c ≤ 'z')

/-- `re.fullmatch(r"[0-9A-Za-z]{4}", s)` succeeds: exactly four ASCII
alphanumeric characters. -/
def isValidPdbId (s : String) : Bool :=
  s.length == 4 && s.data.all isAsciiAlnum

/-- Python `str.upper()` restricted to ASCII (all strings the program
accepts as accession codes are ASCII alphanumeric): uppercase each
character. -/
def upper (s : String) : String :=
  ⟨s.data.map Char.toUpper⟩

/-- `dir / name` for `pathlib.Path` values, rendered as a plain string. -/
def pathJoin (d name : String) : String :=
  d ++ "/" ++ name

/-- The fixed RCSB URL template `f"https://files.rcsb.org/download/{pdb_id}.pdb"`. -/
def pdbUrl (code : String) : String :=
  "https://files.rcsb.org/download/" ++ code ++ ".pdb"

/-- `pathlib.Path.with_suffix`: drop the last extension of the final path
component (none is dropped when the final component has no dot, or only a
leading dot) and append `suffix`. -/
def withSuffix (p : String) (suffix : String) : String :=
  let rev := p.data.reverse
  let rest := rev.dropWhile (fun c => !(c == '.') && !(c == '/'))
  match rest with
  | c :: rest2 =>
      -- a dot was found inside the final component; it is only dropped when
      -- the component's stem is nonempty (no leading-dot hidden file)
      if c = '.' ∧ ¬(rest2.head? = some '/' ∨ rest2 = []) then ⟨rest2.reverse⟩ ++ suffix
      else p ++ suffix
  | [] => p ++ suffix

/-- `Path(p).name`: the final path component. -/
def pathName (p : String) : String :=
  ((p.splitOn "/").reverse).headD ""

/-- How an f-string renders a cell that pandas read from the `id` column:
a present string renders as itself, a missing cell (`NaN`) as `"nan"`. -/
def pyStr (o : Option String) : String :=
  match o with
  | some s => s
  | none => "nan"

/-- The Python exceptions the program can raise. -/
inductive PyError where
  /-- `ValueError`, raised by `download` on a malformed accession code. -/
  | valueError (msg : String)
  /-- `FileNotFoundError`: raised by `download` on HTTP 404, and by
  `shutil.move` when the source file does not exist. -/
  | fileNotFoundError (msg : String)
  /-- A re-raised `urllib.error.HTTPError` with a status other than 404. -/
  | httpError (code : Nat)
  /-- A transport-level failure (`urllib.error.URLError`, a dropped
  connection, …) that `download` does not catch. -/
  | urlError (cause : String)
  /-- `UnboundLocalError`, raised when a local variable is read before any
  assignment to it. -/
  | unboundLocalError (name : String)
deriving Repr, DecidableEq

/-- Outcome of the single HTTP GET on a URL. -/
inductive HttpResp where
  /-- Status 200 and the full body is delivered. -/
  | ok (body : List Nat)
  /-- Status 200 but the connection drops after `partBody` bytes. -/
  | interrupted (partBody : List Nat)
  /-- `urlopen` raises `urllib.error.HTTPError` with this status. -/
  | httpError (code : Nat)
  /-- `urlopen` raises a transport-level error (not an `HTTPError`). -/
  | urlError (cause : String)
deriving Repr, DecidableEq

/-- The network: what the single GET on each URL returns. -/
abbrev Net := String → HttpResp

/-- A filesystem side effect, recorded in order of execution. -/
inductive Ev where
  | mkdirEv (d : String)
  | requestEv (url : String)
  /-- `open(p, "wb")`: create or truncate. -/
  | openEv (p : String)
  | writeEv (p : String) (data : List Nat)
  /-- `Path.replace`: atomic rename, overwriting the destination. -/
  | renameEv (src dst : String)
  | moveEv (src dst : String)
  | copyEv (src dst : String)
deriving Repr, DecidableEq

/-- Regular files, as an association list from path to content; the first
binding for a path is its current content. -/
abbrev FS := List (String × List Nat)

/-- Content of the file at `p`, if it exists. -/
def FS.get? (fs : FS) (p : String) : Option (List Nat) :=
  (fs.find? (fun e => e.1 == p)).map (fun e => e.2)

/-- Remove the file at `p`. -/
def FS.del (fs : FS) (p : String) : FS :=
  fs.filter (fun e => !(e.1 == p))

/-- Create or overwrite the file at `p` with content `v`. -/
def FS.set (fs : FS) (p : String) (v : List Nat) : FS :=
  (p, v) :: FS.del fs p

/-- The world state: directories, regular files, and the trace of side
effects performed so far. -/
structure World where
  dirs : List String
  files : FS
  events : List Ev
deriving Repr, DecidableEq

/-- `Path.mkdir(parents=True, exist_ok=True)`. -/
def World.mkdir (w : World) (d : String) : World :=
  { w with dirs := if d ∈ w.dirs then w.dirs else d :: w.dirs,
           events := w.events ++ [.mkdirEv d] }

/-- Record the HTTP GET issued by `urlopen`. -/
def World.request (w : World) (url : String) : World :=
  { w with events := w.events ++ [.requestEv url] }

/-- `open(p, "wb")`: the file at `p` is created empty (or truncated). -/
def World.openw (w : World) (p : String) : World :=
  { w with files := FS.set w.files p [],
           events := w.events ++ [.openEv p] }

/-- `shutil.copyfileobj(resp, fh)`: the received bytes end up in `p`. -/
def World.write (w : World) (p : String) (data : List Nat) : World :=
  { w with files := FS.set w.files p data,
           events := w.events ++ [.writeEv p data] }

/-- `Path.replace(dst)`: atomic rename `src → dst`, overwriting `dst`.
(`download` only calls it on a `src` it has just written, so the
missing-source case below is never reached there.) -/
def World.replace (w : World) (src dst : String) : World :=
  match FS.get? w.files src with
  | some v =>
      { w with files := FS.set (FS.del w.files src) dst v,
               events := w.events ++ [.renameEv src dst] }
  | none => w

/-- `shutil.move(src, dst)` for regular files on one filesystem: an
overwriting rename; raises `FileNotFoundError` when `src` does not exist. -/
def World.move (w : World) (src dst : String) : Except PyError Unit × World :=
  match FS.get? w.files src with
  | none =>
      (.error (.fileNotFoundError ("No such file or directory: " ++ src)), w)
  | some v =>
      (.ok (),
       { w with files := FS.set (FS.del w.files src) dst v,
                events := w.events ++ [.moveEv src dst] })

/-- `shutil.copy2(src, dst)`; `srcContent` is what the source file (outside
the modelled output tree) holds. -/
def World.copy2 (w : World) (srcContent : List Nat) (src dst : String) : World :=
  { w with files := FS.set w.files dst srcContent,
           events := w.events ++ [.copyEv src dst] }

/-- Shallow embedding of `download(pdb_id, out_dir)`.  The first component
is the Python return value: the source has no `return` statement (its
docstring says "Returns None."), so on success the value is `none`, never a
path. -/
def download (net : Net) (pdb_id : String) (out_dir : String) (w : World) :
    Except PyError (Option String) × World :=
  if !(isValidPdbId pdb_id) then
    (.error (.valueError ("Invalid PDB ID: '" ++ pdb_id ++ "'")), w)
  else
    let code := upper pdb_id
    let w := w.mkdir out_dir
    let target := pathJoin out_dir (code ++ ".pdb")
    -- `if target.exists(): pass` in the source is a no-op.
    let url := pdbUrl code
    let tmp := withSuffix target ".pdb.part"
    let w := w.request url
    match net url with
    | .ok body =>
        let w := (w.openw tmp).write tmp body
        let w := w.replace tmp target
        (.ok none, w)
    | .interrupted partBody =>
        -- `urlopen` succeeded, `open(tmp, "wb")` ran, `copyfileobj` raised
        -- mid-stream; the exception is not an `HTTPError`, so it propagates.
        let w := (w.openw tmp).write tmp partBody
        (.error (.urlError "connection interrupted"), w)
    | .httpError c =>
        if c == 404 then
          (.error (.fileNotFoundError ("PDB entry " ++ code ++ " not found at RCSB.")), w)
        else
          (.error (.httpError c), w)
    | .urlError cause =>
        (.error (.urlError cause), w)

/-- One row of the parsed CSV; `none` is a missing (`NaN`) cell. -/
structure CsvRow where
  pdb_id : Option String
  id : Option String
deriving Repr, DecidableEq

/-- The parsed CSV: whether an `id` column exists, and the rows. -/
structure Csv where
  hasId : Bool
  rows : List CsvRow
deriving Repr, DecidableEq

/-- One iteration of the loop in `retrieve_natives`: `download(pdb_id,
outdir)` followed by `shutil.move(outdir/f"{pdb_id}.pdb", outdir/f"{id}.pdb")`. -/
def processOne (net : Net) (outdir : String) (pdb_id id : String) (w : World) :
    Except PyError Unit × World :=
  match download net pdb_id outdir w with
  | (.error e, w) => (.error e, w)
  | (.ok _, w) =>
      w.move (pathJoin outdir (pdb_id ++ ".pdb")) (pathJoin outdir (id ++ ".pdb"))

/-- The `for pdb_id, id in zip(pdb_ids, ids)` loop of `retrieve_natives`. -/
def runBatch (net : Net) (outdir : String) :
    List (String × String) → World → Except PyError Unit × World
  | [], w => (.ok (), w)
  | (pdb_id, id) :: rest, w =>
      match processOne net outdir pdb_id id w with
      | (.ok _, w) => runBatch net outdir rest w
      | (.error e, w) => (.error e, w)

/-- Shallow embedding of `retrieve_natives(input, outdir)`.  `src` models
the dispatch on the input path: `some csv` when `input` is a path to an
existing file with suffix `.csv` that pandas parses to `csv`; `none`
otherwise.  In the `none` branch the source sets `pdb_ids = [input.strip()]`
but never assigns the local variable `ids`, so evaluating
`zip(pdb_ids, ids)` raises `UnboundLocalError` before the loop runs. -/
def retrieve_natives (net : Net) (input : String) (src : Option Csv)
    (outdir : String) (w : World) : Except PyError String × World :=
  let w := w.mkdir outdir
  match src with
  | some csv =>
      -- df.dropna(subset=["pdb_id"]) then df["pdb_id"].tolist()
      let kept := csv.rows.filter (fun r => r.pdb_id.isSome)
      let pdb_ids := kept.filterMap (fun r => r.pdb_id)
      -- `ids = df["id"].tolist()`; on KeyError, `df["id"] = df["pdb_id"]`.
      let ids := if csv.hasId then kept.map (fun r => pyStr r.id) else pdb_ids
      match runBatch net outdir (pdb_ids.zip ids) w with
      | (.ok _, w) => (.ok outdir, w)
      | (.error e, w) => (.error e, w)
  | none =>
      let _pdb_ids : List String := [input.trim]
      (.error (.unboundLocalError "ids"), w)

/-- The CLI arguments of `build_download_parser`. -/
structure Args where
  input : String
  output_dir : String
  name : String
deriving Repr, DecidableEq

/-- Parsing a command line with `build_download_parser()`: `--input` is
required, `--output_dir` defaults to `"."`, `--name` defaults to
`"natives"`. -/
def parseArgs (input : String) (output_dir : Option String)
    (name : Option String) : Args :=
  { input := input,
    output_dir := output_dir.getD ".",
    name := name.getD "natives" }

/-- Shallow embedding of `main()` after argument parsing: derives the
output directory `args.output_dir / "natives"`, runs `retrieve_natives`,
then copies the input table into the output directory.  `inputBytes` is the
content of the input file (which lives outside the modelled output tree). -/
def main (net : Net) (args : Args) (src : Option Csv) (inputBytes : List Nat)
    (w : World) : Except PyError Unit × World :=
  let output_dir := pathJoin args.output_dir "natives"
  match retrieve_natives net args.input src output_dir w with
  | (.error e, w) => (.error e, w)
  | (.ok _, w) =>
      (.ok (), w.copy2 inputBytes args.input (pathJoin output_dir (pathName args.input)))

/-! ### Helper lemmas -/

theorem isAsciiAlnum_ne_slash {c : Char} (h : isAsciiAlnum c = true) : c ≠ '/' := by
  intro hc
  subst hc
  exact absurd h (by decide)

theorem ofNat_interval_ne_slash : ∀ m : Nat, m < 91 → 65 ≤ m → Char.ofNat m ≠ '/' := by
  decide

theorem toUpper_ne_slash {c : Char} (h : isAsciiAlnum c = true) :
    Char.toUpper c ≠ '/' := by
  have hdef : Char.toUpper c
      = if c.toNat ≥ 97 ∧ c.toNat ≤ 122 then Char.ofNat (c.toNat - 32) else c := rfl
  rw [hdef]
  split
  · rename_i h2
    exact ofNat_interval_ne_slash (c.toNat - 32) (by omega) (by omega)
  · exact isAsciiAlnum_ne_slash h

theorem find?_filter_ne (t : FS) (p q : String) (h : q ≠ p) :
    List.find? (fun e => e.1 == q) (t.filter (fun e => !(e.1 == p)))
      = List.find? (fun e => e.1 == q) t := by
  induction t with
  | nil => rfl
  | cons e t ih =>
      obtain ⟨k, v⟩ := e
      by_cases hk : k = q
      · subst hk
        have h1 : (k == p) = false := beq_eq_false_iff_ne.mpr h
        simp [List.filter_cons, List.find?_cons, h1]
      · by_cases hkp : k = p
        · subst hkp
          have h1 : (k == q) = false := beq_eq_false_iff_ne.mpr hk
          simp [List.filter_cons, List.find?_cons, h1, ih]
        · have h1 : (k == q) = false := beq_eq_false_iff_ne.mpr hk
          have h2 : (k == p) = false := beq_eq_false_iff_ne.mpr hkp
          simp [List.filter_cons, List.find?_cons, h1, h2, ih]

theorem find?_filter_self (t : FS) (p : String) :
    List.find? (fun e => e.1 == p) (t.filter (fun e => !(e.1 == p))) = none := by
  induction t with
  | nil => rfl
  | cons e t ih =>
      obtain ⟨k, v⟩ := e
      by_cases hk : k = p
      · subst hk
        simp [List.filter_cons, ih]
      · have h1 : (k == p) = false := beq_eq_false_iff_ne.mpr hk
        simp [List.filter_cons, List.find?_cons, h1, ih]

theorem FS.get?_set_self (fs : FS) (p : String) (v : List Nat) :
    FS.get? (FS.set fs p v) p = some v := by
  simp [FS.get?, FS.set, List.find?]

theorem FS.get?_del_ne (fs : FS) {p q : String} (h : q ≠ p) :
    FS.get? (FS.del fs p) q = FS.get? fs q := by
  simp only [FS.get?, FS.del, find?_filter_ne fs p q h]

theorem FS.get?_del_self (fs : FS) (p : String) :
    FS.get? (FS.del fs p) p = none := by
  simp [FS.get?, FS.del, find?_filter_self fs p]

theorem FS.get?_set_ne (fs : FS) {p q : String} (v : List Nat) (h : q ≠ p) :
    FS.get? (FS.set fs p v) q = FS.get? fs q := by
  have hpq : ¬(p = q) := fun hc => h hc.symm
  rw [← FS.get?_del_ne fs h]
  simp [FS.set, FS.get?, List.find?_cons, hpq]

theorem str_ne_of_length_ne {s t : String} (h : s.data.length ≠ t.data.length) :
    s ≠ t := by
  intro he
  exact h (by rw [he])


theorem withSuffix_pdb_part (d code : String) (hne : code.data ≠ [])
    (hlast : code.data.getLast? ≠ some '/') :
    withSuffix (pathJoin d (code ++ ".pdb")) ".pdb.part"
      = pathJoin d (code ++ ".pdb.part") := by
  have hdrop : (pathJoin d (code ++ ".pdb")).data.reverse.dropWhile
        (fun c => !(c == '.') && !(c == '/'))
      = '.' :: (code.data.reverse ++ '/' :: d.data.reverse) := by
    have hdata : (pathJoin d (code ++ ".pdb")).data.reverse
        = 'b' :: 'd' :: 'p' :: '.' :: (code.data.reverse ++ '/' :: d.data.reverse) := by
      simp [pathJoin]
    rw [hdata]
    rfl
  have hws : withSuffix (pathJoin d (code ++ ".pdb")) ".pdb.part"
      = match (pathJoin d (code ++ ".pdb")).data.reverse.dropWhile
            (fun c => !(c == '.') && !(c == '/')) with
        | c :: rest2 =>
            if c = '.' ∧ ¬(rest2.head? = some '/' ∨ rest2 = []) then
              (⟨rest2.reverse⟩ : String) ++ ".pdb.part"
            else pathJoin d (code ++ ".pdb") ++ ".pdb.part"
        | [] => pathJoin d (code ++ ".pdb") ++ ".pdb.part" := rfl
  rw [hws, hdrop]
  apply String.ext
  simp [pathJoin, hlast, hne]

theorem valid_length {s : String} (hv : isValidPdbId s = true) :
    s.data.length = 4 := by
  obtain ⟨l⟩ := s
  have h1 := (Bool.and_eq_true _ _).mp hv |>.1
  simpa using h1

theorem valid_data_ne_nil {s : String} (hv : isValidPdbId s = true) :
    s.data ≠ [] := by
  have hlen := valid_length hv
  intro hc
  rw [hc] at hlen
  simp at hlen

theorem valid_alnum {s : String} (hv : isValidPdbId s = true) :
    ∀ c ∈ s.data, isAsciiAlnum c = true := by
  have := (Bool.and_eq_true _ _).mp hv |>.2
  simpa [List.all_eq_true] using this

theorem upper_data (s : String) : (upper s).data = s.data.map Char.toUpper := rfl

theorem upper_data_ne_nil {s : String} (hv : isValidPdbId s = true) :
    (upper s).data ≠ [] := by
  rw [upper_data]
  simp [valid_data_ne_nil hv]

theorem upper_getLast_ne_slash {s : String} (hv : isValidPdbId s = true) :
    (upper s).data.getLast? ≠ some '/' := by
  rw [upper_data, List.getLast?_map]
  intro hc
  obtain ⟨c, hc1, hc2⟩ := Option.map_eq_some'.mp hc
  exact toUpper_ne_slash (valid_alnum hv c (List.mem_of_getLast?_eq_some hc1)) hc2

theorem withSuffix_download {s : String} (d : String) (hv : isValidPdbId s = true) :
    withSuffix (pathJoin d (upper s ++ ".pdb")) ".pdb.part"
      = pathJoin d (upper s ++ ".pdb.part") :=
  withSuffix_pdb_part d (upper s) (upper_data_ne_nil hv) (upper_getLast_ne_slash hv)



theorem target_ne_tmp (d code : String) :
    pathJoin d (code ++ ".pdb") ≠ pathJoin d (code ++ ".pdb.part") := by
  apply str_ne_of_length_ne
  simp [pathJoin]

theorem download_ok {net : Net} {s : String} (d : String) (w : World)
    {body : List Nat} (hv : isValidPdbId s = true)
    (hnet : net (pdbUrl (upper s)) = .ok body) :
    download net s d w =
      (.ok none,
       { dirs := if d ∈ w.dirs then w.dirs else d :: w.dirs,
         files := FS.set
           (FS.del (FS.set (FS.set w.files (pathJoin d (upper s ++ ".pdb.part")) [])
              (pathJoin d (upper s ++ ".pdb.part")) body) (pathJoin d (upper s ++ ".pdb.part")))
           (pathJoin d (upper s ++ ".pdb")) body,
         events := w.events ++
           [.mkdirEv d, .requestEv (pdbUrl (upper s)),
            .openEv (pathJoin d (upper s ++ ".pdb.part")),
            .writeEv (pathJoin d (upper s ++ ".pdb.part")) body,
            .renameEv (pathJoin d (upper s ++ ".pdb.part")) (pathJoin d (upper s ++ ".pdb"))] }) := by
  simp [download, hv, withSuffix_download d hv, hnet, World.mkdir, World.request,
        World.openw, World.write, World.replace, FS.get?_set_self]

theorem download_interrupted {net : Net} {s : String} (d : String) (w : World)
    {pb : List Nat} (hv : isValidPdbId s = true)
    (hnet : net (pdbUrl (upper s)) = .interrupted pb) :
    download net s d w =
      (.error (.urlError "connection interrupted"),
       { dirs := if d ∈ w.dirs then w.dirs else d :: w.dirs,
         files := FS.set (FS.set w.files (pathJoin d (upper s ++ ".pdb.part")) [])
           (pathJoin d (upper s ++ ".pdb.part")) pb,
         events := w.events ++
           [.mkdirEv d, .requestEv (pdbUrl (upper s)),
            .openEv (pathJoin d (upper s ++ ".pdb.part")),
            .writeEv (pathJoin d (upper s ++ ".pdb.part")) pb] }) := by
  simp [download, hv, withSuffix_download d hv, hnet, World.mkdir, World.request,
        World.openw, World.write]

theorem download_http404 {net : Net} {s : String} (d : String) (w : World)
    (hv : isValidPdbId s = true)
    (hnet : net (pdbUrl (upper s)) = .httpError 404) :
    download net s d w =
      (.error (.fileNotFoundError ("PDB entry " ++ upper s ++ " not found at RCSB.")),
       { dirs := if d ∈ w.dirs then w.dirs else d :: w.dirs,
         files := w.files,
         events := w.events ++ [.mkdirEv d, .requestEv (pdbUrl (upper s))] }) := by
  simp [download, hv, hnet, World.mkdir, World.request]

theorem download_httpOther {net : Net} {s : String} (d : String) (w : World)
    {c : Nat} (hv : isValidPdbId s = true)
    (hnet : net (pdbUrl (upper s)) = .httpError c) (hc : c ≠ 404) :
    download net s d w =
      (.error (.httpError c),
       { dirs := if d ∈ w.dirs then w.dirs else d :: w.dirs,
         files := w.files,
         events := w.events ++ [.mkdirEv d, .requestEv (pdbUrl (upper s))] }) := by
  simp [download, hv, hnet, hc, World.mkdir, World.request]

theorem download_urlErr {net : Net} {s : String} (d : String) (w : World)
    {cause : String} (hv : isValidPdbId s = true)
    (hnet : net (pdbUrl (upper s)) = .urlError cause) :
    download net s d w =
      (.error (.urlError cause),
       { dirs := if d ∈ w.dirs then w.dirs else d :: w.dirs,
         files := w.files,
         events := w.events ++ [.mkdirEv d, .requestEv (pdbUrl (upper s))] }) := by
  simp [download, hv, hnet, World.mkdir, World.request]

theorem download_invalid {net : Net} {s : String} (d : String) (w : World)
    (hv : isValidPdbId s = false) :
    download net s d w =
      (.error (.valueError ("Invalid PDB ID: '" ++ s ++ "'")), w) := by
  simp [download, hv]



/-! ### Claim theorems -/

/-- C1.  The spec says a non-file input such as `"1CRN"` is treated as a
single literal accession code, is downloaded, and produces
`<output_dir>/<CODE>.pdb`.  The code instead creates the output directory
and then raises `UnboundLocalError`: the local `ids` is only ever assigned
in the CSV branch of `retrieve_natives`, so `zip(pdb_ids, ids)` fails
before any download; no entry is fetched and no file is produced. -/
theorem retrieve_natives_literal_code_unbound_local
    (net : Net) (input outdir : String) (w : World) :
    retrieve_natives net input none outdir w
      = (.error (.unboundLocalError "ids"), w.mkdir outdir) := rfl

/-- C2.  The spec says `download` returns the final destination path on
success.  The function body has no `return` statement (its own docstring
says "Returns None."), so on a successful transfer it returns `None`
(`Option.none` here), not `<destination_dir>/<CODE>.pdb`. -/
theorem download_returns_none_on_success
    (net : Net) (s d : String) (w : World) (body : List Nat)
    (hv : isValidPdbId s = true)
    (hnet : net (pdbUrl (upper s)) = .ok body) :
    (download net s d w).fst = .ok none := by
  rw [download_ok d w hv hnet]

/-- Witness for C2 at the concrete input `download("1CRN", "out")` with a
successful transfer. -/
theorem download_returns_none_on_success_witness :
    (download (fun _ => .ok [1, 2]) "1CRN" "out" ⟨[], [], []⟩).fst = .ok none :=
  download_returns_none_on_success _ "1CRN" "out" _ [1, 2] (by decide) rfl

/-- C3.  For a well-formed code: an HTTP 404 raises `FileNotFoundError`
(the spec's `NotFoundError`); any other HTTP error, and any transport
failure, re-raises the underlying error (`httpError c` / `urlError cause`,
the spec's `TransferError` carrying the underlying status/cause).  Each
equation pins the whole final world: exactly one `requestEv` (no retries)
and no file is touched. -/
theorem download_error_mapping
    (net : Net) (s d : String) (w : World) (hv : isValidPdbId s = true) :
    (net (pdbUrl (upper s)) = .httpError 404 →
      download net s d w
        = (.error (.fileNotFoundError ("PDB entry " ++ upper s ++ " not found at RCSB.")),
           { dirs := if d ∈ w.dirs then w.dirs else d :: w.dirs,
             files := w.files,
             events := w.events ++ [.mkdirEv d, .requestEv (pdbUrl (upper s))] })) ∧
    (∀ c, net (pdbUrl (upper s)) = .httpError c → c ≠ 404 →
      download net s d w
        = (.error (.httpError c),
           { dirs := if d ∈ w.dirs then w.dirs else d :: w.dirs,
             files := w.files,
             events := w.events ++ [.mkdirEv d, .requestEv (pdbUrl (upper s))] })) ∧
    (∀ cause, net (pdbUrl (upper s)) = .urlError cause →
      download net s d w
        = (.error (.urlError cause),
           { dirs := if d ∈ w.dirs then w.dirs else d :: w.dirs,
             files := w.files,
             events := w.events ++ [.mkdirEv d, .requestEv (pdbUrl (upper s))] })) :=
  ⟨fun h => download_http404 d w hv h,
   fun c h hc => download_httpOther d w hv h hc,
   fun cause h => download_urlErr d w hv h⟩

/-- Witness for C3: concrete 404, 500 and transport-failure runs on
`"1CRN"`. -/
theorem download_error_mapping_witness :
    download (fun _ => .httpError 404) "1CRN" "out" ⟨[], [], []⟩
      = (.error (.fileNotFoundError ("PDB entry " ++ upper "1CRN" ++ " not found at RCSB.")),
         { dirs := ["out"], files := [],
           events := [.mkdirEv "out", .requestEv (pdbUrl (upper "1CRN"))] }) ∧
    download (fun _ => .httpError 500) "1CRN" "out" ⟨[], [], []⟩
      = (.error (.httpError 500),
         { dirs := ["out"], files := [],
           events := [.mkdirEv "out", .requestEv (pdbUrl (upper "1CRN"))] }) ∧
    download (fun _ => .urlError "timed out") "1CRN" "out" ⟨[], [], []⟩
      = (.error (.urlError "timed out"),
         { dirs := ["out"], files := [],
           events := [.mkdirEv "out", .requestEv (pdbUrl (upper "1CRN"))] }) :=
  ⟨(download_error_mapping _ "1CRN" "out" _ (by decide)).1 rfl,
   (download_error_mapping _ "1CRN" "out" _ (by decide)).2.1 500 rfl (by decide),
   (download_error_mapping _ "1CRN" "out" _ (by decide)).2.2 "timed out" rfl⟩

/-- C5.  Any string failing the `[0-9A-Za-z]{4}` check makes `download`
raise `ValueError` with the world returned exactly as it was: no directory
is created, no request is issued, no file is touched. -/
theorem download_invalid_id_rejected_before_io
    (net : Net) (s d : String) (w : World) (hv : isValidPdbId s = false) :
    download net s d w
      = (.error (.valueError ("Invalid PDB ID: '" ++ s ++ "'")), w) :=
  download_invalid d w hv

/-- Witness for C5 at the five-character string `"12345"`. -/
theorem download_invalid_id_rejected_before_io_witness :
    isValidPdbId "12345" = false ∧
    download (fun _ => .ok [1]) "12345" "out" ⟨[], [], []⟩
      = (.error (.valueError ("Invalid PDB ID: '" ++ "12345" ++ "'")), ⟨[], [], []⟩) :=
  ⟨by decide,
   download_invalid_id_rejected_before_io _ "12345" "out" _ (by decide)⟩

/-- C6.  `download` normalizes case before building the URL and the target
path: on any two valid spellings with the same uppercasing it performs the
identical run (same URL requested, same `<CODE>.pdb` produced, identical
final world). -/
theorem download_case_insensitive
    (net : Net) (s1 s2 d : String) (w : World)
    (hv1 : isValidPdbId s1 = true) (hv2 : isValidPdbId s2 = true)
    (hupper : upper s1 = upper s2) :
    download net s1 d w = download net s2 d w := by
  simp [download, hv1, hv2, hupper]

/-- Witness for C6: `"1crn"` and `"1CRN"` give the identical run. -/
theorem download_case_insensitive_witness :
    download (fun _ => .ok [1]) "1crn" "out" ⟨[], [], []⟩
      = download (fun _ => .ok [1]) "1CRN" "out" ⟨[], [], []⟩ :=
  download_case_insensitive _ "1crn" "1CRN" "out" _ (by decide) (by decide) (by decide)



theorem upper_length_eq (s : String) : (upper s).data.length = s.data.length := by
  simp [upper]

theorem pdb_ne_upper_part (d p : String) :
    pathJoin d (p ++ ".pdb") ≠ pathJoin d (upper p ++ ".pdb.part") := by
  apply str_ne_of_length_ne
  simp [pathJoin, upper]

/-- C4.  On a valid code, `download` opens `<CODE>.pdb.part` in the
destination directory, streams the body into it, then atomically renames it
onto `<CODE>.pdb` (the recorded event trace is exactly open/write/rename);
if the transfer is interrupted mid-stream only the `.part` file holds the
partial bytes; and on every failure whatsoever the content at the final
destination path is exactly what it was before the call. -/
theorem download_streams_part_then_renames_atomically
    (net : Net) (s d : String) (w : World) (hv : isValidPdbId s = true) :
    (∀ body, net (pdbUrl (upper s)) = .ok body →
      (download net s d w).fst = .ok none ∧
      FS.get? (download net s d w).snd.files (pathJoin d (upper s ++ ".pdb")) = some body ∧
      FS.get? (download net s d w).snd.files (pathJoin d (upper s ++ ".pdb.part")) = none ∧
      (download net s d w).snd.events = w.events ++
        [.mkdirEv d, .requestEv (pdbUrl (upper s)),
         .openEv (pathJoin d (upper s ++ ".pdb.part")),
         .writeEv (pathJoin d (upper s ++ ".pdb.part")) body,
         .renameEv (pathJoin d (upper s ++ ".pdb.part")) (pathJoin d (upper s ++ ".pdb"))]) ∧
    (∀ pb, net (pdbUrl (upper s)) = .interrupted pb →
      (download net s d w).fst = .error (.urlError "connection interrupted") ∧
      FS.get? (download net s d w).snd.files (pathJoin d (upper s ++ ".pdb"))
        = FS.get? w.files (pathJoin d (upper s ++ ".pdb")) ∧
      FS.get? (download net s d w).snd.files (pathJoin d (upper s ++ ".pdb.part")) = some pb) ∧
    (∀ e W2, download net s d w = (.error e, W2) →
      FS.get? W2.files (pathJoin d (upper s ++ ".pdb"))
        = FS.get? w.files (pathJoin d (upper s ++ ".pdb"))) := by
  have htt := target_ne_tmp d (upper s)
  refine ⟨?_, ?_, ?_⟩
  · intro body hnet
    rw [download_ok d w hv hnet]
    refine ⟨rfl, ?_, ?_, rfl⟩
    · exact FS.get?_set_self _ _ _
    · rw [FS.get?_set_ne _ _ (Ne.symm htt)]
      exact FS.get?_del_self _ _
  · intro pb hnet
    rw [download_interrupted d w hv hnet]
    refine ⟨rfl, ?_, ?_⟩
    · rw [FS.get?_set_ne _ _ htt, FS.get?_set_ne _ _ htt]
    · exact FS.get?_set_self _ _ _
  · intro e W2 heq
    cases hnet : net (pdbUrl (upper s)) with
    | ok body =>
        rw [download_ok d w hv hnet] at heq
        exact absurd (congrArg Prod.fst heq) (by simp)
    | interrupted pb =>
        rw [download_interrupted d w hv hnet] at heq
        injection heq with h1 h2
        subst h2
        rw [FS.get?_set_ne _ _ htt, FS.get?_set_ne _ _ htt]
    | httpError c =>
        by_cases hc : c = 404
        · subst hc
          rw [download_http404 d w hv hnet] at heq
          injection heq with h1 h2
          subst h2
          rfl
        · rw [download_httpOther d w hv hnet hc] at heq
          injection heq with h1 h2
          subst h2
          rfl
    | urlError cause =>
        rw [download_urlErr d w hv hnet] at heq
        injection heq with h1 h2
        subst h2
        rfl

/-- Witness for C4: a successful run and an interrupted run on `"1CRN"`,
with an empty starting world. -/
theorem download_streams_part_then_renames_atomically_witness :
    ((download (fun _ => .ok [1, 2]) "1CRN" "out" ⟨[], [], []⟩).fst = .ok none ∧
     FS.get? (download (fun _ => .ok [1, 2]) "1CRN" "out" ⟨[], [], []⟩).snd.files
       (pathJoin "out" (upper "1CRN" ++ ".pdb")) = some [1, 2]) ∧
    ((download (fun _ => .interrupted [1]) "1CRN" "out" ⟨[], [], []⟩).fst
        = .error (.urlError "connection interrupted") ∧
     FS.get? (download (fun _ => .interrupted [1]) "1CRN" "out" ⟨[], [], []⟩).snd.files
       (pathJoin "out" (upper "1CRN" ++ ".pdb")) = none) := by
  constructor
  · have h := (download_streams_part_then_renames_atomically
      (fun _ => .ok [1, 2]) "1CRN" "out" ⟨[], [], []⟩ (by decide)).1 [1, 2] rfl
    exact ⟨h.1, h.2.1⟩
  · have h := (download_streams_part_then_renames_atomically
      (fun _ => .interrupted [1]) "1CRN" "out" ⟨[], [], []⟩ (by decide)).2.1 [1] rfl
    exact ⟨h.1, h.2.1⟩

/-- C9.  The parser accepts `--name` (default `"natives"`), but `main`
never consumes it: two parsed command lines differing only in the `--name`
value drive the identical run — same `<output_dir>/natives` directory, same
files, same events, same result. -/
theorem name_flag_unused
    (net : Net) (input : String) (output_dir n1 n2 : Option String)
    (src : Option Csv) (bytes : List Nat) (w : World) :
    (parseArgs input output_dir none).name = "natives" ∧
    main net (parseArgs input output_dir n1) src bytes w
      = main net (parseArgs input output_dir n2) src bytes w :=
  ⟨rfl, rfl⟩



theorem filter_isSome_idem (rows : List CsvRow) :
    (rows.filter (fun r => r.pdb_id.isSome)).filter (fun r => r.pdb_id.isSome)
      = rows.filter (fun r => r.pdb_id.isSome) := by
  rw [List.filter_filter]
  simp

/-- C7.  With a `pdb_id` column and no `id` column: rows whose `pdb_id` is
missing are dropped before the loop (running on the pre-filtered table is
the identical run, so no fetch happens for them), and `output_id` defaults
to `pdb_id`, so the single row `pdb_id=9XYZ` ends up as `9XYZ.pdb` in the
output directory. -/
theorem retrieve_natives_defaults_output_id_to_pdb_id
    (net : Net) (input outdir : String) (w : World) :
    (∀ rows : List CsvRow,
      retrieve_natives net input (some ⟨false, rows⟩) outdir w
        = retrieve_natives net input
            (some ⟨false, rows.filter (fun r => r.pdb_id.isSome)⟩) outdir w) ∧
    (∀ body, net (pdbUrl "9XYZ") = .ok body →
      (retrieve_natives net input (some ⟨false, [⟨some "9XYZ", none⟩]⟩) outdir w).fst
        = .ok outdir ∧
      FS.get? (retrieve_natives net input
          (some ⟨false, [⟨some "9XYZ", none⟩]⟩) outdir w).snd.files
        (pathJoin outdir ("9XYZ" ++ ".pdb")) = some body) := by
  constructor
  · intro rows
    simp only [retrieve_natives, filter_isSome_idem]
  · intro body hnet
    have h9 : upper "9XYZ" = "9XYZ" := by decide
    have hnet9 : net (pdbUrl (upper "9XYZ")) = .ok body := by rw [h9]; exact hnet
    have hdl := download_ok outdir (w.mkdir outdir) (show isValidPdbId "9XYZ" = true
      by decide) hnet9
    rw [h9] at hdl
    simp only [retrieve_natives, runBatch, processOne, hdl, World.move,
      List.filter, List.filterMap, List.zip, List.zipWith, Option.isSome,
      FS.get?_set_self]
    exact ⟨trivial, trivial⟩



/-- Witness for C7: concrete single-row table `pdb_id=9XYZ` (no `id`
column), and a table with one missing-`pdb_id` row that runs identically to
its filtered form. -/
theorem retrieve_natives_defaults_output_id_to_pdb_id_witness :
    (retrieve_natives (fun _ => .ok [5]) "in.csv"
        (some ⟨false, [⟨some "9XYZ", none⟩]⟩) "out" ⟨[], [], []⟩).fst = .ok "out" ∧
    FS.get? (retrieve_natives (fun _ => .ok [5]) "in.csv"
        (some ⟨false, [⟨some "9XYZ", none⟩]⟩) "out" ⟨[], [], []⟩).snd.files
      (pathJoin "out" ("9XYZ" ++ ".pdb")) = some [5] ∧
    retrieve_natives (fun _ => .ok [5]) "in.csv"
        (some ⟨false, [⟨none, none⟩, ⟨some "9XYZ", none⟩]⟩) "out" ⟨[], [], []⟩
      = retrieve_natives (fun _ => .ok [5]) "in.csv"
        (some ⟨false, [⟨some "9XYZ", none⟩]⟩) "out" ⟨[], [], []⟩ := by
  refine ⟨?_, ?_, ?_⟩
  · exact ((retrieve_natives_defaults_output_id_to_pdb_id _ "in.csv" "out" _).2 [5] rfl).1
  · exact ((retrieve_natives_defaults_output_id_to_pdb_id _ "in.csv" "out" _).2 [5] rfl).2
  · exact (retrieve_natives_defaults_output_id_to_pdb_id (fun _ => .ok [5]) "in.csv" "out"
      ⟨[], [], []⟩).1 [⟨none, none⟩, ⟨some "9XYZ", none⟩]

/-- C8.  A failing entry aborts the whole batch on the spot: running the
loop on `l1 ++ e :: l2`, where every entry of `l1` succeeds and `e` fails,
is the identical run as stopping right after `e` — later entries are never
fetched and the world (all files renamed for `l1`'s entries included) is
exactly the state at the failure.  And `main` propagates the error without
copying the input table: its result is exactly `retrieve_natives`'s. -/
theorem batch_aborts_on_first_failure (net : Net) (outdir : String) :
    (∀ (l1 : List (String × String)) (p i : String) (l2 : List (String × String)) (w : World),
      (runBatch net outdir l1 w).fst = .ok () →
      (∃ err, (processOne net outdir p i (runBatch net outdir l1 w).snd).fst = .error err) →
      runBatch net outdir (l1 ++ (p, i) :: l2) w
        = processOne net outdir p i (runBatch net outdir l1 w).snd) ∧
    (∀ (args : Args) (src : Option Csv) (bytes : List Nat) (w : World)
        (e : PyError) (w2 : World),
      retrieve_natives net args.input src (pathJoin args.output_dir "natives") w
        = (.error e, w2) →
      main net args src bytes w = (.error e, w2)) := by
  constructor
  · intro l1
    induction l1 with
    | nil =>
        intro p i l2 w h1 herr
        obtain ⟨err, herr⟩ := herr
        simp only [runBatch, List.nil_append] at herr ⊢
        rcases hpo : processOne net outdir p i w with ⟨f, w3⟩
        rw [hpo] at herr
        simp only at herr
        subst herr
        simp [hpo]
    | cons q t ih =>
        obtain ⟨qp, qi⟩ := q
        intro p i l2 w h1 herr
        obtain ⟨err, herr⟩ := herr
        simp only [List.cons_append, runBatch] at h1 herr ⊢
        rcases hq : processOne net outdir qp qi w with ⟨f, w3⟩
        rw [hq] at h1 herr
        cases f with
        | error e0 => simp at h1
        | ok u =>
            simp only at h1 herr ⊢
            exact ih p i l2 w3 h1 ⟨err, herr⟩
  · intro args src bytes w e w2 h
    simp [main, h]



/-- Witness for C8: a three-entry batch whose second entry gets a 404
aborts right there, and a concrete failing `main` run stops with
`retrieve_natives`'s error and world (no copy of the input table). -/
theorem batch_aborts_on_first_failure_witness :
    runBatch (fun u => if u = pdbUrl "2BAD" then .httpError 404 else .ok [3]) "out"
        [("1CRN", "a"), ("2BAD", "b"), ("3CCC", "c")] ⟨[], [], []⟩
      = processOne (fun u => if u = pdbUrl "2BAD" then .httpError 404 else .ok [3]) "out"
          "2BAD" "b"
          (runBatch (fun u => if u = pdbUrl "2BAD" then .httpError 404 else .ok [3]) "out"
            [("1CRN", "a")] ⟨[], [], []⟩).snd ∧
    main (fun u => if u = pdbUrl "2BAD" then .httpError 404 else .ok [3])
        ⟨"in.csv", ".", "whatever"⟩ (some ⟨true, [⟨some "2BAD", some "b"⟩]⟩) [7] ⟨[], [], []⟩
      = (.error (.fileNotFoundError ("PDB entry 2BAD not found at RCSB.")),
         ⟨["./natives"], [],
          [.mkdirEv "./natives", .mkdirEv "./natives", .requestEv (pdbUrl "2BAD")]⟩) := by
  constructor
  · exact (batch_aborts_on_first_failure
      (fun u => if u = pdbUrl "2BAD" then .httpError 404 else .ok [3]) "out").1
      [("1CRN", "a")] "2BAD" "b" [("3CCC", "c")] ⟨[], [], []⟩ rfl
      ⟨.fileNotFoundError ("PDB entry 2BAD not found at RCSB."), rfl⟩
  · exact (batch_aborts_on_first_failure
      (fun u => if u = pdbUrl "2BAD" then .httpError 404 else .ok [3]) "out").2
      ⟨"in.csv", ".", "whatever"⟩ (some ⟨true, [⟨some "2BAD", some "b"⟩]⟩) [7] ⟨[], [], []⟩
      (.fileNotFoundError ("PDB entry 2BAD not found at RCSB."))
      ⟨["./natives"], [],
       [.mkdirEv "./natives", .mkdirEv "./natives", .requestEv (pdbUrl "2BAD")]⟩ rfl



theorem pathJoin_pdb_ne (d : String) {a b : String} (h : a ≠ b) :
    pathJoin d (a ++ ".pdb") ≠ pathJoin d (b ++ ".pdb") := by
  intro hc
  apply h
  have h2 := congrArg String.data hc
  simp [pathJoin] at h2
  exact String.ext h2



theorem World.move_ok {w : World} {src dst : String} {v : List Nat}
    (h : FS.get? w.files src = some v) :
    w.move src dst
      = (.ok (), { w with files := FS.set (FS.del w.files src) dst v,
                          events := w.events ++ [.moveEv src dst] }) := by
  simp only [World.move, h]

theorem World.move_err {w : World} {src dst : String}
    (h : FS.get? w.files src = none) :
    w.move src dst
      = (.error (.fileNotFoundError ("No such file or directory: " ++ src)), w) := by
  simp only [World.move, h]

/-- C10.  For a CSV row whose `pdb_id` is not already fully uppercase,
`download` succeeds but writes `<CODE>.pdb` under the uppercased code,
while the loop's `shutil.move` source is built from the original-case
`pdb_id`; with no pre-existing file at that source path the row fails with
`FileNotFoundError` at the rename — even though the uppercased file was
downloaded.  The row succeeds exactly when `pdb_id` is its own uppercasing
or the move source already existed. -/
theorem retrieve_natives_lowercase_row_fails_after_download
    (net : Net) (input outdir : String) (w : World) (p : String) (body : List Nat)
    (hv : isValidPdbId p = true)
    (hnet : net (pdbUrl (upper p)) = .ok body) :
    ((retrieve_natives net input (some ⟨false, [⟨some p, none⟩]⟩) outdir w).fst = .ok outdir
      ↔ (upper p = p ∨
         (FS.get? w.files (pathJoin outdir (p ++ ".pdb"))).isSome = true)) ∧
    (upper p ≠ p → FS.get? w.files (pathJoin outdir (p ++ ".pdb")) = none →
      (retrieve_natives net input (some ⟨false, [⟨some p, none⟩]⟩) outdir w).fst
        = .error (.fileNotFoundError ("No such file or directory: "
            ++ pathJoin outdir (p ++ ".pdb"))) ∧
      FS.get? (retrieve_natives net input
          (some ⟨false, [⟨some p, none⟩]⟩) outdir w).snd.files
        (pathJoin outdir (upper p ++ ".pdb")) = some body) := by
  have hdl := download_ok outdir (w.mkdir outdir) hv hnet
  have hcomp : ∀ (res : Except PyError Unit × World),
      processOne net outdir p p (w.mkdir outdir) = res →
      retrieve_natives net input (some ⟨false, [⟨some p, none⟩]⟩) outdir w
        = (match res with
           | (.ok _, w2) => (.ok outdir, w2)
           | (.error e, w2) => (.error e, w2)) := by
    intro res hres
    rcases res with ⟨f, w2⟩
    cases f with
    | ok u => simp [retrieve_natives, runBatch, hres]
    | error e0 => simp [retrieve_natives, runBatch, hres]
  have hpo : processOne net outdir p p (w.mkdir outdir)
      = (download net p outdir (w.mkdir outdir)).snd.move
          (pathJoin outdir (p ++ ".pdb")) (pathJoin outdir (p ++ ".pdb")) := by
    simp only [processOne, hdl]
  by_cases hup : upper p = p
  · have hget : FS.get? (download net p outdir (w.mkdir outdir)).snd.files
        (pathJoin outdir (p ++ ".pdb")) = some body := by
      simp only [hdl]
      rw [show pathJoin outdir (p ++ ".pdb") = pathJoin outdir (upper p ++ ".pdb") from
        by rw [hup]]
      exact FS.get?_set_self _ _ _
    have hretr := hcomp _ (hpo.trans (World.move_ok hget))
    have hfst : (retrieve_natives net input
        (some ⟨false, [⟨some p, none⟩]⟩) outdir w).fst = .ok outdir := by
      rw [hretr]
    exact ⟨⟨fun _ => Or.inl hup, fun _ => hfst⟩, fun hup2 _ => absurd hup hup2⟩
  · have hne_target : pathJoin outdir (p ++ ".pdb") ≠ pathJoin outdir (upper p ++ ".pdb") :=
      pathJoin_pdb_ne outdir (fun hc => hup hc.symm)
    have hne_tmp : pathJoin outdir (p ++ ".pdb") ≠ pathJoin outdir (upper p ++ ".pdb.part") :=
      pdb_ne_upper_part outdir p
    have hget0 : FS.get? (download net p outdir (w.mkdir outdir)).snd.files
        (pathJoin outdir (p ++ ".pdb"))
        = FS.get? w.files (pathJoin outdir (p ++ ".pdb")) := by
      simp only [hdl]
      rw [FS.get?_set_ne _ _ hne_target, FS.get?_del_ne _ hne_tmp,
          FS.get?_set_ne _ _ hne_tmp, FS.get?_set_ne _ _ hne_tmp]
      rfl
    by_cases hex : FS.get? w.files (pathJoin outdir (p ++ ".pdb")) = none
    · have hretr := hcomp _ (hpo.trans (World.move_err (hget0.trans hex)))
      have hfst : (retrieve_natives net input
          (some ⟨false, [⟨some p, none⟩]⟩) outdir w).fst
          = .error (.fileNotFoundError ("No such file or directory: "
              ++ pathJoin outdir (p ++ ".pdb"))) := by
        rw [hretr]
      refine ⟨⟨?_, ?_⟩, ?_⟩
      · intro hok
        rw [hfst] at hok
        exact absurd hok (by simp)
      · intro hor
        rcases hor with hor | hor
        · exact absurd hor hup
        · rw [hex] at hor
          exact absurd hor (by simp)
      · intro _ _
        refine ⟨hfst, ?_⟩
        rw [hretr]
        simp only [hdl]
        exact FS.get?_set_self _ _ _
    · obtain ⟨v, hv2⟩ := Option.ne_none_iff_exists'.mp hex
      have hretr := hcomp _ (hpo.trans (World.move_ok (hget0.trans hv2)))
      have hfst : (retrieve_natives net input
          (some ⟨false, [⟨some p, none⟩]⟩) outdir w).fst = .ok outdir := by
        rw [hretr]
      refine ⟨⟨fun _ => Or.inr (by rw [hv2]; rfl), fun _ => hfst⟩,
        fun _ hnone => absurd hnone hex⟩



/-- Witness for C10 at the concrete row `pdb_id="1crn"`, starting from an
empty world: the uppercased file `out/1CRN.pdb` is downloaded, yet the row
fails renaming the nonexistent `out/1crn.pdb`. -/
theorem retrieve_natives_lowercase_row_fails_after_download_witness :
    upper "1crn" ≠ "1crn" ∧
    (retrieve_natives (fun _ => .ok [9]) "in.csv"
        (some ⟨false, [⟨some "1crn", none⟩]⟩) "out" ⟨[], [], []⟩).fst
      = .error (.fileNotFoundError ("No such file or directory: "
          ++ pathJoin "out" ("1crn" ++ ".pdb"))) ∧
    FS.get? (retrieve_natives (fun _ => .ok [9]) "in.csv"
        (some ⟨false, [⟨some "1crn", none⟩]⟩) "out" ⟨[], [], []⟩).snd.files
      (pathJoin "out" (upper "1crn" ++ ".pdb")) = some [9] := by
  have h := (retrieve_natives_lowercase_row_fails_after_download
    (fun _ => .ok [9]) "in.csv" "out" ⟨[], [], []⟩ "1crn" [9] (by decide) rfl).2
    (by decide) rfl
  exact ⟨by decide, h.1, h.2⟩


end Native
